import Mathlib

/-!
# Verification of `src/App.js`

A shallow embedding of the three components of `App.js`:

* `CameraController` (camera placement from `view` and `fov`),
* `App` (the three numeric state values and their handlers),
* `RotatingGroup` (asset loading, recolouring and the rendered children).

Numbers are taken in an arbitrary field `α`; the functions of the JavaScript
`Math` object that the source calls (`Math.sin`, `Math.cos`, `Math.PI`) are
arguments of the definitions, and the theorems instantiate them with
`Real.sin`, `Real.cos` and `Real.pi`.
-/

namespace App

/-! ## CameraController -/

/-- A triple of coordinates, as passed to `camera.position.set` and `camera.lookAt`. -/
structure Vec3 (α : Type) where
  x : α
  y : α
  z : α
deriving DecidableEq, Repr

/-- The part of the three.js camera that `CameraController` reads or writes:
`position` (written by `camera.position.set`), `target` (the point handed to
the last `camera.lookAt`), `fov` (the field `camera.fov`) and `projectionFov`
(the value of `fov` that the last `camera.updateProjectionMatrix()` used). -/
structure Camera (α : Type) where
  position : Vec3 α
  target : Vec3 α
  fov : α
  projectionFov : α
deriving DecidableEq, Repr

/-- Line 78: `const angle = (view / 90) * (Math.PI / 2)`. -/
def viewAngle {α : Type} [Field α] (PI : α) (view : α) : α :=
  (view / 90) * (PI / 2)

/-- Lines 79-83: the arguments of `camera.position.set`. -/
def viewPosition {α : Type} [Field α] (sin cos : α → α) (PI : α) (view : α) : Vec3 α :=
  let angle := viewAngle PI view
  { x := sin angle * 200, y := cos angle * 200, z := 0 }

/-- Lines 77-85: the body of the first effect, `camera.position.set(..)` followed
by `camera.lookAt(0, 0, 0)`. -/
def viewEffect {α : Type} [Field α] (sin cos : α → α) (PI : α) (view : α)
    (camera : Camera α) : Camera α :=
  let camera1 := { camera with position := viewPosition sin cos PI view }
  { camera1 with target := { x := 0, y := 0, z := 0 } }

/-- Lines 87-90: the body of the second effect, `camera.fov = fov` followed by
`camera.updateProjectionMatrix()`. -/
def fovEffect {α : Type} (fov : α) (camera : Camera α) : Camera α :=
  let camera1 := { camera with fov := fov }
  { camera1 with projectionFov := camera1.fov }

/-- The values the two dependency arrays `[view, camera]` and `[fov, camera]`
are built from; `cameraId` stands for the identity of the object returned by
`useThree()`. -/
structure Deps (α : Type) where
  view : α
  fov : α
  cameraId : Nat
deriving DecidableEq, Repr

/-- First commit of `CameraController`: both effects run, in source order. -/
def mount {α : Type} [Field α] (sin cos : α → α) (PI : α) (next : Deps α)
    (camera : Camera α) : Camera α :=
  fovEffect next.fov (viewEffect sin cos PI next.view camera)

/-- A later commit of `CameraController`: an effect runs when one of the entries
of its dependency array differs from the previous commit. -/
def rerender {α : Type} [Field α] [DecidableEq α] (sin cos : α → α) (PI : α)
    (prev next : Deps α) (camera : Camera α) : Camera α :=
  let camera1 :=
    if prev.view ≠ next.view ∨ prev.cameraId ≠ next.cameraId then
      viewEffect sin cos PI next.view camera
    else camera
  if prev.fov ≠ next.fov ∨ prev.cameraId ≠ next.cameraId then
    fovEffect next.fov camera1
  else camera1

/-! ## App: state and handlers -/

/-- The three `useState` cells of `App` (lines 96-98). -/
structure State (α : Type) where
  rotation : α
  view : α
  fov : α
deriving DecidableEq, Repr

/-- Lines 96-98: the initial values of the three cells. -/
def initialState {α : Type} [Field α] : State α :=
  { rotation := 0, view := 0, fov := 50 }

/-- Lines 100-104; `degrees` is the number `parseFloat(event.target.value)`. -/
def handleRotationChange {α : Type} [Field α] (PI : α) (degrees : α) (s : State α) : State α :=
  let radians := degrees * (PI / 180)
  { s with rotation := radians }

/-- Lines 106-108; `value` is the number `parseFloat(event.target.value)`. -/
def handleViewChange {α : Type} (value : α) (s : State α) : State α :=
  { s with view := value }

/-- Lines 110-112; `value` is the number `parseFloat(event.target.value)`. -/
def handleFovChange {α : Type} (value : α) (s : State α) : State α :=
  { s with fov := value }

/-- Lines 114-118: the three setter calls of one click, applied together. -/
def handleReset {α : Type} [Field α] (s : State α) : State α :=
  let s1 := { s with rotation := 0 }
  let s2 := { s1 with view := 50 }
  { s2 with fov := 50 }

/-- Lines 149 and 153: `rotation * (180 / Math.PI)`. -/
def rotationDegrees {α : Type} [Field α] (PI : α) (s : State α) : α :=
  s.rotation * (180 / PI)

/-- `Number.prototype.toFixed(1)` for a number of magnitude below `10^21`: the
integer `n` closest to `10 * x` (the larger one on a tie) is printed with a
point before its last digit, after a minus sign when `x` is negative. -/
def toFixed1 {α : Type} [LinearOrderedField α] [FloorRing α] (x : α) : String :=
  let sign := if x < 0 then "-" else ""
  let n := (Int.floor (|x| * 10 + 1 / 2)).toNat
  sign ++ toString (n / 10) ++ "." ++ toString (n % 10)

/-- Line 153: the text of the `<span>` next to the rotation slider. -/
def rotationLabel {α : Type} [LinearOrderedField α] [FloorRing α] (PI : α) (s : State α) :
    String :=
  toFixed1 (rotationDegrees PI s) ++ "°"

/-! ## RotatingGroup -/

/-- A three.js `Color`, identified by the CSS colour it was last set from. -/
structure Color where
  css : String
deriving DecidableEq, Repr

/-- A three.js material, reduced to its `color` property; `none` is a material
class that has no such property. -/
structure Material where
  color : Option Color
deriving DecidableEq, Repr

/-- The value of `child.material`: missing, one material, or an array of
materials (a mesh with several material groups). -/
inductive MaterialSlot where
  | absent
  | single (m : Material)
  | multi (ms : List Material)
deriving DecidableEq, Repr

/-- A node of a loaded scene graph: the `isMesh` flag, the `material` property
and the child nodes. -/
inductive Object3D where
  | node (isMesh : Bool) (material : MaterialSlot) (children : List Object3D)
deriving Repr

/-- JavaScript truthiness of `child.material`: objects and arrays are truthy,
`undefined` and `null` are not. -/
def MaterialSlot.truthy : MaterialSlot → Bool
  | .absent => false
  | .single _ => true
  | .multi _ => true

/-- Line 19: `child.material.color.set('red')`. Reading `color` from an array,
or from a material without that property, gives `undefined`, and the call of
`set` on it throws. -/
def setColorRed : MaterialSlot → Except String MaterialSlot
  | .single m =>
    match m.color with
    | some _ => .ok (.single { m with color := some { css := "red" } })
    | none => .error "TypeError: child.material.color is undefined"
  | .multi _ => .error "TypeError: child.material.color is undefined"
  | .absent => .error "TypeError: child.material is undefined"

/-- Lines 17-21: the callback handed to `object.traverse`, acting on the
`isMesh` flag and `material` property of one node. -/
def recolorChild (isMesh : Bool) (material : MaterialSlot) : Except String MaterialSlot :=
  if isMesh && material.truthy then setColorRed material else .ok material

mutual
/-- The call `object.traverse(callback)` of three.js with the callback of lines 17-21:
the callback runs on the node itself, then on every child in order. -/
def traverse : Object3D → Except String Object3D
  | .node isMesh material children =>
    match recolorChild isMesh material with
    | .error e => .error e
    | .ok material1 =>
      match traverseChildren children with
      | .error e => .error e
      | .ok children1 => .ok (.node isMesh material1 children1)
/-- The loop of `traverse` over the `children` array. -/
def traverseChildren : List Object3D → Except String (List Object3D)
  | [] => .ok []
  | c :: cs =>
    match traverse c with
    | .error e => .error e
    | .ok c1 =>
      match traverseChildren cs with
      | .error e => .error e
      | .ok cs1 => .ok (c1 :: cs1)
end

/-- The two `useState` cells of `RotatingGroup` (lines 8-9). -/
structure GroupState where
  drone : Option Object3D
  error : Option String
deriving Repr

/-- Lines 8-9: both cells start as `null`. -/
def GroupState.initial : GroupState :=
  { drone := none, error := none }

/-- Lines 16-23: the success callback of `loader.load`. A throw inside the
traversal leaves before `setDrone` is reached. -/
def onDroneLoad (object : Object3D) (s : GroupState) : Except String GroupState :=
  match traverse object with
  | .error e => .error e
  | .ok object1 => .ok { s with drone := some object1 }

/-- Lines 25-28: the error callback of `loader.load`. -/
def onDroneError (_err : String) (s : GroupState) : GroupState :=
  { s with error := some "Failed to load drone model." }

/-- The state of one asset load. -/
inductive Asset where
  | pending
  | loaded (scene : Option Object3D)
  | failed (message : String)
deriving Repr

/-- What a render of `RotatingGroup` can throw instead of returning: the
promise of a suspended hook, or an error. -/
inductive Thrown where
  | promise
  | error (message : String)
deriving DecidableEq, Repr

/-- The hook `useGLTF(path)` of drei followed by `.scene` (line 10). The hook
suspends (throws a promise) while the file is loading, throws the load error
once the load has failed, and returns the parsed file otherwise. -/
def useGLTF : Asset → Except Thrown (Option Object3D)
  | .pending => .error .promise
  | .failed message => .error (.error message)
  | .loaded scene => .ok scene

/-- The children of the `<group>` of lines 39-70. -/
inductive Element where
  | plane (width height : Nat) (position : Vec3 ℚ)
  | circle (radius segments : Nat) (position : Vec3 ℚ)
  | hemisphere (radius : ℚ) (position : Vec3 ℚ)
  | primitive (object : Object3D) (position : Vec3 ℚ) (scale : Vec3 ℚ)
  | html (position : Vec3 ℚ) (text : String)
deriving Repr

/-- Lines 41-54: the three elements that are always present. -/
def staticGeometry : List Element :=
  [ .plane 200 200 { x := 0, y := 0, z := 0 },
    .circle 100 64 { x := 0, y := 5 / 100, z := 0 },
    .hemisphere (5 / 2) { x := 0, y := 5 / 100, z := 0 } ]

/-- Lines 38-71: the returned JSX, given the value of `glbModel`. An operand of
`&&` that is `null` renders nothing. -/
def jsx (glbModel : Option Object3D) (s : GroupState) : List Element :=
  staticGeometry
    ++ (match s.drone with
        | some drone =>
          [.primitive drone { x := 60, y := 50, z := 0 } { x := 5 / 100, y := 5 / 100, z := 5 / 100 }]
        | none => [])
    ++ (match glbModel with
        | some glb =>
          [.primitive glb { x := -60, y := 50, z := 0 } { x := 5 / 100, y := 5 / 100, z := 5 / 100 }]
        | none => [])
    ++ (match s.error with
        | some error => if error = "" then [] else [.html { x := 0, y := 2, z := 0 } error]
        | none => [])

/-- One render of `RotatingGroup` (lines 6-72): the hook call of line 10 comes
first, and when it throws nothing is returned. -/
def render (glb : Asset) (s : GroupState) : Except Thrown (List Element) :=
  match useGLTF glb with
  | .error t => .error t
  | .ok glbModel => .ok (jsx glbModel s)

/-- Whether an element is the error overlay of lines 63-69. -/
def Element.isOverlay : Element → Bool
  | .html _ _ => true
  | _ => false

/-- The number of error overlays among rendered elements. -/
def overlayCount (es : List Element) : Nat :=
  (es.filter Element.isOverlay).length

/-- The documented ranges of the three controls, read on a state: `view` in
`[0, 90]`, `fov` in `[10, 100]` and the rotation, in degrees, in `[0, 360]`. -/
def InRange {α : Type} [LinearOrderedField α] (PI : α) (s : State α) : Prop :=
  (0 ≤ s.view ∧ s.view ≤ 90) ∧ (10 ≤ s.fov ∧ s.fov ≤ 100) ∧
    (0 ≤ rotationDegrees PI s ∧ rotationDegrees PI s ≤ 360)

/-- Whether the value of `child.material` is one material whose colour is red. -/
def MaterialSlot.isRed : MaterialSlot → Bool
  | .single m => decide (m.color = some { css := "red" })
  | .multi _ => false
  | .absent => false

/-- Whether the value of `child.material` is missing, or is one material that
has a `color` property. -/
def MaterialSlot.plain : MaterialSlot → Bool
  | .absent => true
  | .single m => m.color.isSome
  | .multi _ => false

mutual
/-- Every mesh node of the tree has a red surface colour. -/
def allMeshesRed : Object3D → Bool
  | .node isMesh material children =>
    (!isMesh || material.isRed) && allMeshesRedList children
/-- The same, for a list of trees. -/
def allMeshesRedList : List Object3D → Bool
  | [] => true
  | c :: cs => allMeshesRed c && allMeshesRedList cs
end

mutual
/-- Every mesh node of the tree that has a material has a red surface colour. -/
def materialMeshesRed : Object3D → Bool
  | .node isMesh material children =>
    (!(isMesh && material.truthy) || material.isRed) && materialMeshesRedList children
/-- The same, for a list of trees. -/
def materialMeshesRedList : List Object3D → Bool
  | [] => true
  | c :: cs => materialMeshesRed c && materialMeshesRedList cs
end

mutual
/-- In every mesh node of the tree the material is missing or is one material
with a `color` property. -/
def plainMaterials : Object3D → Bool
  | .node isMesh material children =>
    (!isMesh || material.plain) && plainMaterialsList children
/-- The same, for a list of trees. -/
def plainMaterialsList : List Object3D → Bool
  | [] => true
  | c :: cs => plainMaterials c && plainMaterialsList cs
end

mutual
/-- The second tree is the first one recoloured: same shape and `isMesh` flags;
at a mesh node that had a material the material is now one red material; at
every other node the `material` value is the one it had. -/
def recoloredFrom : Object3D → Object3D → Bool
  | .node isMesh material children, .node isMesh1 material1 children1 =>
    decide (isMesh1 = isMesh)
      && (if isMesh && material.truthy then material1.isRed else decide (material1 = material))
      && recoloredFromList children children1
/-- The same, for two lists of trees of equal length. -/
def recoloredFromList : List Object3D → List Object3D → Bool
  | [], [] => true
  | c :: cs, c1 :: cs1 => recoloredFrom c c1 && recoloredFromList cs cs1
  | [], _ :: _ => false
  | _ :: _, [] => false
end

/-! ## Theorems: CameraController -/

/-- C1: for every `view`, the position written by the view effect lies at
distance exactly 200 from the origin: the squares of its coordinates sum to
`200 ^ 2`, and the square root of that sum is 200. -/
theorem viewEffect_distance (view : ℝ) (camera : Camera ℝ) :
    ((viewEffect Real.sin Real.cos Real.pi view camera).position
        = viewPosition Real.sin Real.cos Real.pi view) ∧
    ((viewPosition Real.sin Real.cos Real.pi view).x ^ 2
        + (viewPosition Real.sin Real.cos Real.pi view).y ^ 2
        + (viewPosition Real.sin Real.cos Real.pi view).z ^ 2 = 200 ^ 2) ∧
    (Real.sqrt ((viewPosition Real.sin Real.cos Real.pi view).x ^ 2
        + (viewPosition Real.sin Real.cos Real.pi view).y ^ 2
        + (viewPosition Real.sin Real.cos Real.pi view).z ^ 2) = 200) := by
  have hsq : (viewPosition Real.sin Real.cos Real.pi view).x ^ 2
        + (viewPosition Real.sin Real.cos Real.pi view).y ^ 2
        + (viewPosition Real.sin Real.cos Real.pi view).z ^ 2 = 200 ^ 2 := by
    simp only [viewPosition]
    have h := Real.sin_sq_add_cos_sq (viewAngle Real.pi view)
    nlinarith [h]
  refine ⟨rfl, hsq, ?_⟩
  rw [hsq]
  exact Real.sqrt_sq (by norm_num)

/-- C2: the view effect places the camera at `(0, 200, 0)` for `view = 0` and
at `(200, 0, 0)` for `view = 90`. -/
theorem viewEffect_endpoints (camera : Camera ℝ) :
    (viewEffect Real.sin Real.cos Real.pi 0 camera).position = { x := 0, y := 200, z := 0 } ∧
    (viewEffect Real.sin Real.cos Real.pi 90 camera).position = { x := 200, y := 0, z := 0 } := by
  constructor
  · simp [viewEffect, viewPosition, viewAngle]
  · have h : viewAngle Real.pi 90 = Real.pi / 2 := by
      simp [viewAngle]
    simp [viewEffect, viewPosition, h]

/-- C3: with the camera object unchanged, a commit in which only `fov` changed
runs the fov effect alone and leaves position and look-at target as they were;
a commit in which only `view` changed runs the view effect alone and leaves
`fov` and the projection as they were. -/
theorem rerender_orthogonal {α : Type} [Field α] [DecidableEq α] (sin cos : α → α) (PI : α)
    (prev next : Deps α) (camera : Camera α) (hcam : prev.cameraId = next.cameraId) :
    (prev.view = next.view → prev.fov ≠ next.fov →
      rerender sin cos PI prev next camera = fovEffect next.fov camera ∧
      (rerender sin cos PI prev next camera).position = camera.position ∧
      (rerender sin cos PI prev next camera).target = camera.target ∧
      (rerender sin cos PI prev next camera).fov = next.fov) ∧
    (prev.fov = next.fov → prev.view ≠ next.view →
      rerender sin cos PI prev next camera = viewEffect sin cos PI next.view camera ∧
      (rerender sin cos PI prev next camera).fov = camera.fov ∧
      (rerender sin cos PI prev next camera).projectionFov = camera.projectionFov ∧
      (rerender sin cos PI prev next camera).position = viewPosition sin cos PI next.view ∧
      (rerender sin cos PI prev next camera).target = { x := 0, y := 0, z := 0 }) := by
  constructor
  · intro hv hf
    have h : rerender sin cos PI prev next camera = fovEffect next.fov camera := by
      simp [rerender, hv, hf, hcam]
    rw [h]
    exact ⟨rfl, rfl, rfl, rfl⟩
  · intro hf hv
    have h : rerender sin cos PI prev next camera = viewEffect sin cos PI next.view camera := by
      simp [rerender, hv, hf, hcam]
    rw [h]
    exact ⟨rfl, rfl, rfl, rfl, rfl⟩

/-- Witness for C3 on a commit from `(view, fov) = (30, 50)` to `(30, 60)`. -/
theorem rerender_orthogonal_witness :
    rerender Real.sin Real.cos Real.pi
        { view := 30, fov := 50, cameraId := 0 } { view := 30, fov := 60, cameraId := 0 }
        { position := { x := 0, y := 200, z := 200 }, target := { x := 0, y := 0, z := 0 },
          fov := 50, projectionFov := 50 }
      = fovEffect (60 : ℝ)
        { position := { x := 0, y := 200, z := 200 }, target := { x := 0, y := 0, z := 0 },
          fov := 50, projectionFov := 50 } ∧
    (rerender Real.sin Real.cos Real.pi
        { view := 30, fov := 50, cameraId := 0 } { view := 30, fov := 60, cameraId := 0 }
        { position := { x := 0, y := 200, z := 200 }, target := { x := 0, y := 0, z := 0 },
          fov := 50, projectionFov := 50 }).position = { x := 0, y := 200, z := 200 } :=
  have h := (rerender_orthogonal Real.sin Real.cos Real.pi
    { view := 30, fov := 50, cameraId := 0 } { view := 30, fov := 60, cameraId := 0 }
    { position := { x := 0, y := 200, z := 200 }, target := { x := 0, y := 0, z := 0 },
      fov := 50, projectionFov := 50 } rfl).1 rfl (by norm_num)
  ⟨h.1, h.2.1⟩

/-- C9: the angle conversion sends 0 to 0 and 90 to `π / 2`, is strictly
increasing, and sends `[0, 90]` into `[0, π / 2]`. -/
theorem viewAngle_monotone :
    viewAngle Real.pi 0 = 0 ∧ viewAngle Real.pi 90 = Real.pi / 2 ∧
    (∀ v1 v2 : ℝ, v1 < v2 → viewAngle Real.pi v1 < viewAngle Real.pi v2) ∧
    (∀ v : ℝ, 0 ≤ v → v ≤ 90 →
      0 ≤ viewAngle Real.pi v ∧ viewAngle Real.pi v ≤ Real.pi / 2) := by
  have hpi := Real.pi_pos
  refine ⟨by simp [viewAngle], by simp [viewAngle], ?_, ?_⟩
  · intro v1 v2 h
    simp only [viewAngle]
    have : v1 / 90 < v2 / 90 := by linarith
    nlinarith
  · intro v h0 h90
    simp only [viewAngle]
    constructor
    · positivity
    · have : v / 90 ≤ 1 := by linarith
      nlinarith

/-- Witness for C9 at the views 30 and 60. -/
theorem viewAngle_monotone_witness :
    viewAngle Real.pi 30 < viewAngle Real.pi 60 ∧
    (0 ≤ viewAngle Real.pi 45 ∧ viewAngle Real.pi 45 ≤ Real.pi / 2) :=
  ⟨viewAngle_monotone.2.2.1 30 60 (by norm_num),
   viewAngle_monotone.2.2.2 45 (by norm_num) (by norm_num)⟩

/-- C10: the camera after the view effect and the fov effect is the same for
every starting camera, it is the pose given by `view` and `fov` alone, and
running the effects again with the same inputs (or committing again with
unchanged dependencies) leaves it unchanged. -/
theorem mount_pure_idempotent {α : Type} [Field α] [DecidableEq α] (sin cos : α → α) (PI : α)
    (d : Deps α) (camera1 camera2 : Camera α) :
    mount sin cos PI d camera1 = mount sin cos PI d camera2 ∧
    mount sin cos PI d camera1 =
      { position := viewPosition sin cos PI d.view, target := { x := 0, y := 0, z := 0 },
        fov := d.fov, projectionFov := d.fov } ∧
    mount sin cos PI d (mount sin cos PI d camera1) = mount sin cos PI d camera1 ∧
    rerender sin cos PI d d (mount sin cos PI d camera1) = mount sin cos PI d camera1 := by
  refine ⟨rfl, rfl, rfl, ?_⟩
  simp [rerender]

/-! ## Theorems: App state -/

/-- C4: for every degree value `d`, `handleRotationChange` stores
`d * (π / 180)` and the displayed value `rotation * (180 / π)` is `d` again;
for `d = 90` the stored value is `π / 2`, within `0.0001` of `1.5708`, and the
label reads `90.0°`. -/
theorem handleRotationChange_roundtrip (d : ℝ) (s : State ℝ) :
    (handleRotationChange Real.pi d s).rotation = d * (Real.pi / 180) ∧
    rotationDegrees Real.pi (handleRotationChange Real.pi d s) = d ∧
    (handleRotationChange Real.pi 90 s).rotation = Real.pi / 2 ∧
    |(handleRotationChange Real.pi 90 s).rotation - 1.5708| < 0.0001 ∧
    rotationLabel Real.pi (handleRotationChange Real.pi 90 s) = "90.0°" := by
  have hpi : Real.pi ≠ 0 := Real.pi_ne_zero
  have hback : ∀ e : ℝ, rotationDegrees Real.pi (handleRotationChange Real.pi e s) = e := by
    intro e
    simp only [rotationDegrees, handleRotationChange]
    field_simp
  have h90 : (handleRotationChange Real.pi 90 s).rotation = Real.pi / 2 := by
    simp only [handleRotationChange]
    ring
  refine ⟨rfl, hback d, h90, ?_, ?_⟩
  · rw [h90, abs_lt]
    have h1 := Real.pi_gt_d6
    have h2 := Real.pi_lt_d6
    constructor <;> norm_num <;> linarith
  · have hfloor : Int.floor (|(90 : ℝ)| * 10 + 1 / 2) = 900 := by
      rw [Int.floor_eq_iff]
      norm_num
    have hneg : ¬ ((90 : ℝ) < 0) := by norm_num
    simp only [rotationLabel, hback 90, toFixed1, hfloor, hneg, if_false]
    decide

/-- C5: from every prior state, `handleReset` gives rotation 0, view 50 and
fov 50; the displayed rotation is then 0 degrees, the result does not depend on
the prior state, and a second reset changes nothing. -/
theorem handleReset_baseline {α : Type} [Field α] (PI : α) (s t : State α) :
    handleReset s = { rotation := 0, view := 50, fov := 50 } ∧
    rotationDegrees PI (handleReset s) = 0 ∧
    handleReset s = handleReset t ∧
    handleReset (handleReset s) = handleReset s := by
  refine ⟨rfl, ?_, rfl, rfl⟩
  simp [rotationDegrees, handleReset]

/-- C8, as stated, fails: the handlers store what they are given. From the
initial state the inputs 91 (view), 101 (fov) and 361 (rotation, in degrees) are
stored as they are, the other two cells staying as they were, and each leaves
the state outside the documented range. -/
theorem handlers_do_not_clamp :
    (handleViewChange (91 : ℝ) initialState = { rotation := 0, view := 91, fov := 50 } ∧
      ¬ ((handleViewChange (91 : ℝ) initialState).view ≤ 90)) ∧
    (handleFovChange (101 : ℝ) initialState = { rotation := 0, view := 0, fov := 101 } ∧
      ¬ ((handleFovChange (101 : ℝ) initialState).fov ≤ 100)) ∧
    (handleRotationChange Real.pi 361 initialState
        = { rotation := 361 * (Real.pi / 180), view := 0, fov := 50 } ∧
      rotationDegrees Real.pi (handleRotationChange Real.pi 361 initialState) = 361 ∧
      ¬ (rotationDegrees Real.pi (handleRotationChange Real.pi 361 initialState) ≤ 360)) ∧
    ¬ InRange Real.pi (handleViewChange (91 : ℝ) initialState) ∧
    ¬ InRange Real.pi (handleFovChange (101 : ℝ) initialState) ∧
    ¬ InRange Real.pi (handleRotationChange Real.pi 361 initialState) := by
  have hpi : Real.pi ≠ 0 := Real.pi_ne_zero
  have hrot : rotationDegrees Real.pi (handleRotationChange Real.pi 361 initialState) = 361 := by
    simp only [rotationDegrees, handleRotationChange]
    field_simp
  refine ⟨⟨rfl, ?_⟩, ⟨rfl, ?_⟩, ⟨rfl, hrot, ?_⟩, ?_, ?_, ?_⟩
  · simp only [handleViewChange]; norm_num
  · simp only [handleFovChange]; norm_num
  · rw [hrot]; norm_num
  · simp only [InRange, handleViewChange]; norm_num
  · simp only [InRange, handleFovChange]; norm_num
  · intro h
    have h360 := h.2.2.2
    rw [hrot] at h360
    norm_num at h360

/-- C8, amended: for every delivered value and every state, each handler stores
the delivered value unchanged (the rotation as the radians whose degree value is
the delivered one) and leaves the other two cells as they were; so a state
within the documented ranges stays within them whenever the delivered value is
within the range of its control, and the state after a reset is within them. -/
theorem handlers_preserve_range (v : ℝ) (s : State ℝ) :
    (handleViewChange v s = { rotation := s.rotation, view := v, fov := s.fov } ∧
      handleFovChange v s = { rotation := s.rotation, view := s.view, fov := v } ∧
      handleRotationChange Real.pi v s
        = { rotation := v * (Real.pi / 180), view := s.view, fov := s.fov } ∧
      rotationDegrees Real.pi (handleRotationChange Real.pi v s) = v) ∧
    (InRange Real.pi s →
      (0 ≤ v → v ≤ 90 → InRange Real.pi (handleViewChange v s)) ∧
      (10 ≤ v → v ≤ 100 → InRange Real.pi (handleFovChange v s)) ∧
      (0 ≤ v → v ≤ 360 → InRange Real.pi (handleRotationChange Real.pi v s))) ∧
    InRange Real.pi (handleReset s) := by
  have hpi : Real.pi ≠ 0 := Real.pi_ne_zero
  have hrot : rotationDegrees Real.pi (handleRotationChange Real.pi v s) = v := by
    simp only [rotationDegrees, handleRotationChange]
    field_simp
  refine ⟨⟨rfl, rfl, rfl, hrot⟩, ?_, ?_⟩
  · intro hs
    obtain ⟨hview, hfov, hr⟩ := hs
    refine ⟨?_, ?_, ?_⟩
    · intro h0 h1
      exact ⟨⟨h0, h1⟩, hfov, hr⟩
    · intro h0 h1
      exact ⟨hview, ⟨h0, h1⟩, hr⟩
    · intro h0 h1
      refine ⟨hview, hfov, ?_⟩
      rw [hrot]
      exact ⟨h0, h1⟩
  · simp only [InRange, handleReset, rotationDegrees]
    norm_num

/-- The initial state of `App` lies within the documented ranges. -/
theorem initialState_inRange : InRange Real.pi (initialState : State ℝ) := by
  simp only [InRange, initialState, rotationDegrees]
  norm_num

/-- Witness for the amended C8 at the initial state: the values 45 (view), 70
(fov) and 180 (rotation, in degrees) lie in the range of their control and the
state after each handler is within the documented ranges. -/
theorem handlers_preserve_range_witness :
    InRange Real.pi (initialState : State ℝ) ∧
    InRange Real.pi (handleViewChange (45 : ℝ) initialState) ∧
    InRange Real.pi (handleFovChange (70 : ℝ) initialState) ∧
    InRange Real.pi (handleRotationChange Real.pi 180 initialState) :=
  ⟨initialState_inRange,
   ((handlers_preserve_range 45 initialState).2.1 initialState_inRange).1
      (by norm_num) (by norm_num),
   ((handlers_preserve_range 70 initialState).2.1 initialState_inRange).2.1
      (by norm_num) (by norm_num),
   ((handlers_preserve_range 180 initialState).2.1 initialState_inRange).2.2
      (by norm_num) (by norm_num)⟩

/-! ## Theorems: RotatingGroup -/

/-- On a node whose material is missing or plain, the callback of lines 17-21
returns; where it applied (a mesh with a material) the material it returns is
red, and elsewhere it returns the material it was given. -/
theorem recolorChild_plain (isMesh : Bool) (material : MaterialSlot)
    (h : (!isMesh || material.plain) = true) :
    ∃ material1, recolorChild isMesh material = .ok material1 ∧
      (!(isMesh && material1.truthy) || material1.isRed) = true ∧
      (if isMesh && material.truthy then material1.isRed
        else decide (material1 = material)) = true := by
  cases isMesh
  · exact ⟨material, rfl, by simp, by simp⟩
  · cases material with
    | absent => exact ⟨.absent, rfl, by simp [MaterialSlot.truthy], by simp [MaterialSlot.truthy]⟩
    | multi ms => simp [MaterialSlot.plain] at h
    | single m =>
      cases hc : m.color with
      | none => simp [MaterialSlot.plain, hc] at h
      | some c =>
        refine ⟨.single { m with color := some { css := "red" } }, ?_, ?_, ?_⟩
        · simp [recolorChild, MaterialSlot.truthy, setColorRed, hc]
        · simp [MaterialSlot.isRed]
        · simp [MaterialSlot.truthy, MaterialSlot.isRed]

mutual
/-- On a tree with plain materials the traversal returns the recoloured tree:
every mesh that had a material is red and everything else is kept. -/
theorem traverse_plain : ∀ (o : Object3D), plainMaterials o = true →
    ∃ o1, traverse o = .ok o1 ∧ materialMeshesRed o1 = true ∧ recoloredFrom o o1 = true
  | .node isMesh material children, h => by
    simp only [plainMaterials, Bool.and_eq_true] at h
    obtain ⟨m1, hm, hred, hkept⟩ := recolorChild_plain isMesh material h.1
    obtain ⟨cs1, hcs, hcred, hckept⟩ := traverseChildren_plain children h.2
    refine ⟨.node isMesh m1 cs1, ?_, ?_, ?_⟩
    · simp only [traverse, hm, hcs]
    · simp only [materialMeshesRed, Bool.and_eq_true]
      exact ⟨hred, hcred⟩
    · simp only [recoloredFrom, Bool.and_eq_true]
      simp only [Bool.and_eq_true] at hkept
      exact ⟨⟨by simp, hkept⟩, hckept⟩
/-- The same, for the loop over the children. -/
theorem traverseChildren_plain : ∀ (os : List Object3D), plainMaterialsList os = true →
    ∃ os1, traverseChildren os = .ok os1 ∧ materialMeshesRedList os1 = true ∧
      recoloredFromList os os1 = true
  | [], _ => ⟨[], rfl, rfl, rfl⟩
  | c :: cs, h => by
    simp only [plainMaterialsList, Bool.and_eq_true] at h
    obtain ⟨c1, hc, hred, hkept⟩ := traverse_plain c h.1
    obtain ⟨cs1, hcs, hcred, hckept⟩ := traverseChildren_plain cs h.2
    refine ⟨c1 :: cs1, ?_, ?_, ?_⟩
    · simp only [traverseChildren, hc, hcs]
    · simp only [materialMeshesRedList, Bool.and_eq_true]
      exact ⟨hred, hcred⟩
    · simp only [recoloredFromList, Bool.and_eq_true]
      exact ⟨hkept, hckept⟩
end

/-- C7, as stated, fails: on a loaded group holding a grey mesh and a mesh
without a material the success callback completes; it stores the group with the
first mesh red and the second mesh as it came, without a material and so
without a red surface colour. -/
theorem onDroneLoad_mesh_without_material :
    onDroneLoad (.node false .absent
        [.node true (.single { color := some { css := "grey" } }) [],
         .node true .absent []]) GroupState.initial
      = .ok { drone := some (.node false .absent
                [.node true (.single { color := some { css := "red" } }) [],
                 .node true .absent []]),
              error := none } ∧
    allMeshesRed (.node false .absent
        [.node true (.single { color := some { css := "red" } }) [],
         .node true .absent []]) = false ∧
    allMeshesRed (.node true .absent []) = false := by
  exact ⟨rfl, rfl, rfl⟩

/-- C7, amended: on a loaded tree in which the material of every mesh is missing
or is one material with a colour, the success callback completes and stores the
recoloured tree: every mesh that had a material has that material's colour set
to red, every mesh of the stored tree that has a material is red, and nodes
that are not a mesh or have no material keep what they had. -/
theorem onDroneLoad_recolors (object : Object3D) (s : GroupState)
    (h : plainMaterials object = true) :
    ∃ object1, onDroneLoad object s = .ok { drone := some object1, error := s.error } ∧
      recoloredFrom object object1 = true ∧ materialMeshesRed object1 = true := by
  obtain ⟨o1, ho, hred, hkept⟩ := traverse_plain object h
  exact ⟨o1, by simp only [onDroneLoad, ho], hkept, hred⟩

/-- Witness for the amended C7 on a group holding a grey mesh, a mesh without a
material and a line with a blue material: the stored tree has the grey mesh
red and the other two nodes as they came. -/
theorem onDroneLoad_recolors_witness :
    plainMaterials (.node false .absent
        [.node true (.single { color := some { css := "grey" } }) [],
         .node true .absent [],
         .node false (.single { color := some { css := "blue" } }) []]) = true ∧
    onDroneLoad (.node false .absent
        [.node true (.single { color := some { css := "grey" } }) [],
         .node true .absent [],
         .node false (.single { color := some { css := "blue" } }) []]) GroupState.initial
      = .ok { drone := some (.node false .absent
                [.node true (.single { color := some { css := "red" } }) [],
                 .node true .absent [],
                 .node false (.single { color := some { css := "blue" } }) []]),
              error := none } ∧
    ∃ object1, onDroneLoad (.node false .absent
        [.node true (.single { color := some { css := "grey" } }) [],
         .node true .absent [],
         .node false (.single { color := some { css := "blue" } }) []]) GroupState.initial
          = .ok { drone := some object1, error := GroupState.initial.error } ∧
      recoloredFrom (.node false .absent
        [.node true (.single { color := some { css := "grey" } }) [],
         .node true .absent [],
         .node false (.single { color := some { css := "blue" } }) []]) object1 = true ∧
      materialMeshesRed object1 = true :=
  ⟨rfl, rfl, onDroneLoad_recolors _ _ rfl⟩

/-- A mesh whose `material` is an array makes the success callback throw, so
that `setDrone` is not reached. -/
theorem onDroneLoad_material_array (ms : List Material) (children : List Object3D)
    (s : GroupState) :
    onDroneLoad (.node true (.multi ms) children) s
      = .error "TypeError: child.material.color is undefined" := by
  rfl

/-- C6: when the drone load fails and the GLB load succeeds, the render returns
the static geometry, the GLB model and one overlay. When the GLB load fails and
the drone load succeeds, the hook of line 10 throws: the render returns no
element at all, and for no value of `glbModel` would the returned elements hold
an overlay, since only the drone error callback sets the message. -/
theorem render_partial_failure (err message : String) (scene drone : Object3D) :
    (render (.loaded (some scene)) (onDroneError err GroupState.initial)
        = .ok (staticGeometry ++
            [.primitive scene { x := -60, y := 50, z := 0 }
                { x := 5 / 100, y := 5 / 100, z := 5 / 100 },
             .html { x := 0, y := 2, z := 0 } "Failed to load drone model."]) ∧
      overlayCount (jsx (some scene) (onDroneError err GroupState.initial)) = 1) ∧
    (onDroneLoad (.node true (.single { color := some { css := "grey" } }) [])
        GroupState.initial
        = .ok { drone := some (.node true (.single { color := some { css := "red" } }) []),
                error := none } ∧
      render (.failed message) { drone := some drone, error := none }
        = .error (.error message) ∧
      ∀ glbModel : Option Object3D,
        overlayCount (jsx glbModel { drone := some drone, error := none }) = 0) := by
  refine ⟨⟨?_, ?_⟩, rfl, rfl, ?_⟩
  · simp [render, useGLTF, jsx, onDroneError, GroupState.initial]
  · simp [overlayCount, jsx, onDroneError, GroupState.initial, staticGeometry,
      Element.isOverlay]
  · intro glbModel
    cases glbModel <;>
      simp [overlayCount, jsx, staticGeometry, Element.isOverlay]

end App
